import Mathlib

/-!
Verification development for the datastar-go SDK core.

The Go sources are shallowly embedded: pure fragments become Lean
functions, the stateful server-sent-event generator becomes explicit
state passing over a record, and fallible operations return Except.
Go byte slices and strings are both modelled as Lean String values;
every split the source performs uses a single-character separator, so
splitting is modelled by a structural recursion over the character
list, which the kernel can evaluate.
-/

namespace DatastarGo

/-! ## Go string primitives (single-character splitting, trimming) -/

/-- Character class used by Go strings.TrimSpace (unicode.IsSpace on
the code points that can occur in Accept-Encoding headers). -/
def isGoSpace (c : Char) : Bool :=
  c = ' ' || c = '\t' || c = '\n' || c = '\x0b' || c = '\x0c' || c = '\r'

/-- Split a character list on a separator character, Go strings.Split
semantics for a single-character separator: the empty input yields one
empty part, adjacent separators yield empty parts. -/
def goSplitChars (sep : Char) : List Char → List (List Char)
  | [] => [[]]
  | c :: rest =>
    if c = sep then [] :: goSplitChars sep rest
    else
      match goSplitChars sep rest with
      | [] => [[c]]
      | h :: t => (c :: h) :: t

/-- Go strings.Split (and bytes.Split) for a single-character
separator, over Lean strings. -/
def goSplit (sep : Char) (s : String) : List String :=
  (goSplitChars sep s.data).map fun l => String.mk l

/-- Go strings.TrimSpace. -/
def goTrim (s : String) : String :=
  String.mk (((s.data.dropWhile isGoSpace).reverse.dropWhile isGoSpace).reverse)

/-- Go strconv.FormatBool. -/
def goFormatBool (b : Bool) : String :=
  if b then "true" else "false"

/-- Concatenation of an ordered list of byte chunks written to a
buffer, in write order. -/
def strConcat : List String → String
  | [] => ""
  | s :: rest => s ++ strConcat rest

/-- Go time.Duration.Milliseconds: the duration is an integer count of
nanoseconds and the division truncates toward zero. -/
def durationMs (d : Int) : Int := d.tdiv 1000000

/-! ## Wire constants

The repository generates datastar/consts.go (see the generate task);
that generated file is not part of the sources here, so its constants
are modelled from the spec. -/

/-- Modelled from the spec: wire token of the patch-elements event kind
(spec section 6, event kinds), normally defined in the generated
consts.go which is absent from the sources. -/
def EventTypePatchElements : String := "datastar-patch-elements"

/-- Modelled from the spec: wire token of the patch-signals event kind
(spec section 6, event kinds), normally defined in the generated
consts.go which is absent from the sources. -/
def EventTypePatchSignals : String := "datastar-patch-signals"

/-- Modelled from the spec: dataline key literals (spec section 6,
dataline key prefixes), normally defined in the generated consts.go
which is absent from the sources. -/
def SelectorDatalineLiteral : String := "selector "

/-- Modelled from the spec: dataline key literal for the patch mode
(spec section 6), from the absent generated consts.go. -/
def ModeDatalineLiteral : String := "mode "

/-- Modelled from the spec: dataline key literal for element fragment
lines (spec section 6), from the absent generated consts.go. -/
def ElementsDatalineLiteral : String := "elements "

/-- Modelled from the spec: dataline key literal for signal payload
lines (spec section 6), from the absent generated consts.go. -/
def SignalsDatalineLiteral : String := "signals "

/-- Modelled from the spec: dataline key literal for the only-if-missing
flag (spec section 6), from the absent generated consts.go. -/
def OnlyIfMissingDatalineLiteral : String := "onlyIfMissing "

/-- Modelled from the spec: dataline key literal for the view-transition
flag (spec section 4.3), from the absent generated consts.go. -/
def UseViewTransitionDatalineLiteral : String := "useViewTransition "

/-- Modelled from the spec: patch mode tokens (spec section 3, PatchMode
enumeration; the string values are also pinned by
ElementPatchModeFromString in elements-sugar.go). -/
def ElementPatchModeOuter : String := "outer"

/-- Modelled from the spec: the append patch mode token. -/
def ElementPatchModeAppend : String := "append"

/-! ## sse.go: event data, options, Send

The generator record keeps the fields of ServerSentEventGenerator that
the embedded operations observe: the cancellation context is the
result of ctx.Err() (some message once signalled), the sink is the
ordered byte string written to the response writer, encoding and the
wrapper stack record compression selection, acceptEncoding is the
Accept-Encoding request header captured at construction. -/

structure ServerSentEventGenerator where
  ctxErr : Option String
  sink : String
  encoding : String
  wrappers : List String
  acceptEncoding : String
  deriving DecidableEq

/-- IsClosed from sse.go: true iff ctx.Err() is non-nil. -/
def IsClosed (sse : ServerSentEventGenerator) : Bool :=
  sse.ctxErr.isSome

/-- serverSentEventData from sse.go. The Go field Type is renamed Kind
because Type is a Lean keyword; RetryDuration counts nanoseconds like
Go time.Duration. -/
structure serverSentEventData where
  Kind : String
  EventID : String
  Data : List String
  RetryDuration : Int
  deriving DecidableEq

/-- SSEEventOption values from sse.go, as first-order data. -/
inductive SSEEventOption where
  | withSSEEventId (id : String)
  | withSSERetryDuration (retryDuration : Int)
  deriving DecidableEq

/-- Application of one SSEEventOption, as in sse.go. -/
def applySSEEventOption (e : serverSentEventData) : SSEEventOption → serverSentEventData
  | .withSSEEventId id => { e with EventID := id }
  | .withSSERetryDuration d => { e with RetryDuration := d }

/-- The event value Send builds: the literal initialization from
sse.go followed by the option loop. -/
def buildEvent (defaultRetry : Int) (eventType : String) (dataLines : List String)
    (opts : List SSEEventOption) : serverSentEventData :=
  opts.foldl applySSEEventOption
    { Kind := eventType, EventID := "", Data := dataLines, RetryDuration := defaultRetry }

/-- One write block of Send in sse.go: each constructor corresponds to
one errors.Join block (field literal, payload, newline) or the final
double-newline write, in source order. -/
inductive FrameField where
  | eventLine (t : String)
  | idLine (id : String)
  | retryLine (ms : Int)
  | dataLine (d : String)
  | eventEnd
  deriving DecidableEq

/-- The bytes one write block of Send appends to the buffer. -/
def renderField : FrameField → String
  | .eventLine t => "event: " ++ t ++ "\n"
  | .idLine id => "id: " ++ id ++ "\n"
  | .retryLine ms => "retry: " ++ toString ms ++ "\n"
  | .dataLine d => "data: " ++ d ++ "\n"
  | .eventEnd => "\n\n"

/-- The ordered write blocks Send performs for one event: the event
type line; the id line when EventID is non-empty; the retry line when
the millisecond count is positive and differs from the default
millisecond count; one data line per entry of Data; the double
newline separating events. Directly mirrors sse.go lines 157 to 204. -/
def sendFields (defaultRetry : Int) (evt : serverSentEventData) : List FrameField :=
  [FrameField.eventLine evt.Kind]
    ++ (if evt.EventID ≠ "" then [FrameField.idLine evt.EventID] else [])
    ++ (if 0 < durationMs evt.RetryDuration ∧ durationMs evt.RetryDuration ≠ durationMs defaultRetry
        then [FrameField.retryLine (durationMs evt.RetryDuration)] else [])
    ++ evt.Data.map FrameField.dataLine
    ++ [FrameField.eventEnd]

/-- The full byte string Send appends to the sink for one event: the
write blocks concatenated in order. -/
def sendFrame (defaultRetry : Int) (evt : serverSentEventData) : String :=
  strConcat ((sendFields defaultRetry evt).map renderField)

/-- Send from sse.go: fail fast with a context-cancelled error when the
context has been signalled, otherwise build the event, encode it into
the buffer and append the buffer to the sink. The buffer writes and
the copy to the response writer cannot fail in this model (the Go
buffer writes into a byte buffer, which never fails; transport errors
are outside the claims, which condition on successful writes). -/
def Send (defaultRetry : Int) (sse : ServerSentEventGenerator) (eventType : String)
    (dataLines : List String) (opts : List SSEEventOption) :
    Except String ServerSentEventGenerator :=
  match sse.ctxErr with
  | some err => Except.error ("context cancelled: " ++ err)
  | none =>
    Except.ok { sse with
      sink := sse.sink ++ sendFrame defaultRetry (buildEvent defaultRetry eventType dataLines opts) }

/-- Concatenating two write lists concatenates the bytes. -/
theorem strConcat_append (a b : List String) :
    strConcat (a ++ b) = strConcat a ++ strConcat b := by
  induction a with
  | nil => simp [strConcat, String.empty_append]
  | cons s rest ih => simp [strConcat, ih, String.append_assoc]

/-- The option loop never changes the event kind. -/
theorem applyOpts_Kind (opts : List SSEEventOption) (e : serverSentEventData) :
    (opts.foldl applySSEEventOption e).Kind = e.Kind := by
  induction opts generalizing e with
  | nil => rfl
  | cons o rest ih =>
    cases o <;> simp [List.foldl, applySSEEventOption, ih]

/-- The option loop never changes the data lines. -/
theorem applyOpts_Data (opts : List SSEEventOption) (e : serverSentEventData) :
    (opts.foldl applySSEEventOption e).Data = e.Data := by
  induction opts generalizing e with
  | nil => rfl
  | cons o rest ih =>
    cases o <;> simp [List.foldl, applySSEEventOption, ih]

/-- Layout of one encoded frame: the write blocks concatenate to the
event line, the conditional id line, the conditional retry line, the
data lines in order, and the double newline. -/
theorem sendFrame_layout (defaultRetry : Int) (evt : serverSentEventData) :
    sendFrame defaultRetry evt =
      "event: " ++ evt.Kind ++ "\n"
        ++ (if evt.EventID ≠ "" then "id: " ++ evt.EventID ++ "\n" else "")
        ++ (if 0 < durationMs evt.RetryDuration ∧
              durationMs evt.RetryDuration ≠ durationMs defaultRetry
            then "retry: " ++ toString (durationMs evt.RetryDuration) ++ "\n" else "")
        ++ strConcat (evt.Data.map fun d => "data: " ++ d ++ "\n")
        ++ "\n\n" := by
  unfold sendFrame sendFields
  rw [List.map_append, List.map_append, List.map_append, List.map_append,
    strConcat_append, strConcat_append, strConcat_append, strConcat_append]
  rw [List.map_map]
  have hmap : (evt.Data.map (renderField ∘ FrameField.dataLine)) =
      evt.Data.map fun d => "data: " ++ d ++ "\n" := by
    apply List.map_congr_left; intro d _; rfl
  rw [hmap]
  have h2 : strConcat (List.map renderField (if evt.EventID ≠ ""
      then [FrameField.idLine evt.EventID] else [])) =
      (if evt.EventID ≠ "" then "id: " ++ evt.EventID ++ "\n" else "") := by
    split <;> simp [strConcat, renderField, String.append_empty, String.append_assoc]
  have h3 : strConcat (List.map renderField (if 0 < durationMs evt.RetryDuration ∧
        durationMs evt.RetryDuration ≠ durationMs defaultRetry
      then [FrameField.retryLine (durationMs evt.RetryDuration)] else [])) =
      (if 0 < durationMs evt.RetryDuration ∧
        durationMs evt.RetryDuration ≠ durationMs defaultRetry
      then "retry: " ++ toString (durationMs evt.RetryDuration) ++ "\n" else "") := by
    split <;> simp [strConcat, renderField, String.append_empty, String.append_assoc]
  rw [h2, h3]
  simp [strConcat, renderField, String.append_empty, String.append_assoc]

/-! ## Sequences of Send calls -/

/-- The arguments of one Send call. -/
structure SendCall where
  eventType : String
  dataLines : List String
  opts : List SSEEventOption
  deriving DecidableEq

/-- Run a list of Send calls in order from a single execution context,
stopping at the first failure. -/
def sendSeq (defaultRetry : Int) (sse : ServerSentEventGenerator) :
    List SendCall → Except String ServerSentEventGenerator
  | [] => Except.ok sse
  | c :: rest =>
    match Send defaultRetry sse c.eventType c.dataLines c.opts with
    | Except.error e => Except.error e
    | Except.ok sse2 => sendSeq defaultRetry sse2 rest

/-- The encoded frame of one Send call. -/
def callFrame (defaultRetry : Int) (c : SendCall) : String :=
  sendFrame defaultRetry (buildEvent defaultRetry c.eventType c.dataLines c.opts)

/-- Repeat the same Send call n times, keeping the previous state when
a call fails (the caller observes the failure and retries). -/
def sendRetryLoop (defaultRetry : Int) (sse : ServerSentEventGenerator) (c : SendCall) :
    Nat → ServerSentEventGenerator
  | 0 => sse
  | Nat.succ n =>
    match Send defaultRetry sse c.eventType c.dataLines c.opts with
    | Except.ok sse2 => sendRetryLoop defaultRetry sse2 c n
    | Except.error _ => sendRetryLoop defaultRetry sse c n

/-! ## Compression negotiation (the compression source file)

Compressor factories only matter through the encoding token they
advertise and the wrapping of the sink; wrapping is recorded by
pushing the encoding token on the wrapper stack. The encoding tokens
of the four built-in algorithms come from the imported compression
library: gzip, deflate, br, zstd. -/

structure Compressor where
  Encoding : String
  deriving DecidableEq

inductive CompressionStrategy where
  | clientPriority
  | serverPriority
  | forced
  deriving DecidableEq

structure compressionOptions where
  CompressionStrategy : CompressionStrategy
  ClientEncodings : List String
  Compressors : List Compressor
  deriving DecidableEq

/-- CompressionOption values, as first-order data: the four built-in
compressor registrations (their tuning options do not affect the
advertised encoding) and the three strategy selectors. -/
inductive CompressionOption where
  | withGzip
  | withDeflate
  | withBrotli
  | withZstd
  | withClientPriority
  | withServerPriority
  | withForced
  deriving DecidableEq

/-- Application of one CompressionOption: the With* compressor options
append a compressor with the algorithm encoding token, the strategy
options overwrite the strategy. -/
def applyCompressionOption (cfg : compressionOptions) : CompressionOption → compressionOptions
  | .withGzip => { cfg with Compressors := cfg.Compressors ++ [⟨"gzip"⟩] }
  | .withDeflate => { cfg with Compressors := cfg.Compressors ++ [⟨"deflate"⟩] }
  | .withBrotli => { cfg with Compressors := cfg.Compressors ++ [⟨"br"⟩] }
  | .withZstd => { cfg with Compressors := cfg.Compressors ++ [⟨"zstd"⟩] }
  | .withClientPriority => { cfg with CompressionStrategy := .clientPriority }
  | .withServerPriority => { cfg with CompressionStrategy := .serverPriority }
  | .withForced => { cfg with CompressionStrategy := .forced }

/-- The loop body of parseEncodings: take the part before the first
semicolon of the trimmed part, keep it when non-empty. -/
def parseEncLoop : List String → List String
  | [] => []
  | p :: rest =>
    let token := (goSplit ';' (goTrim p)).headD ""
    if token ≠ "" then token :: parseEncLoop rest else parseEncLoop rest

/-- parseEncodings from the compression source file: split the
Accept-Encoding header on commas, trim each part, drop everything from
the first semicolon on, and keep the non-empty tokens in order. -/
def parseEncodings (header : String) : List String :=
  parseEncLoop (goSplit ',' header)

/-- The inner loop of the client-priority case: first configured
compressor whose encoding equals the client token. -/
def findComp (enc : String) : List Compressor → Option Compressor
  | [] => none
  | comp :: rest => if comp.Encoding = enc then some comp else findComp enc rest

/-- The client-priority double loop of WithCompression: iterate the
client tokens in order, return the first configured compressor
matching one. -/
def findClientPriority (comps : List Compressor) : List String → Option Compressor
  | [] => none
  | enc :: rest =>
    match findComp enc comps with
    | some comp => some comp
    | none => findClientPriority comps rest

/-- The server-priority double loop of WithCompression: iterate the
configured compressors in order, return the first whose encoding
appears anywhere in the client token list. -/
def findServerPriority (clientEncs : List String) : List Compressor → Option Compressor
  | [] => none
  | comp :: rest =>
    if clientEncs.contains comp.Encoding then some comp
    else findServerPriority clientEncs rest

/-- Selecting a compressor wraps the sink with the compressor and sets
the chosen encoding. -/
def selectCompressor (sse : ServerSentEventGenerator) (comp : Compressor) :
    ServerSentEventGenerator :=
  { sse with wrappers := comp.Encoding :: sse.wrappers, encoding := comp.Encoding }

/-- WithCompression from the compression source file: defaults to
client priority with the parsed Accept-Encoding tokens, applies the
options, installs the built-in compressor list (br, zstd, gzip,
deflate) when none was configured, then selects per strategy; when no
token matches, the generator is returned unmodified. -/
def WithCompression (opts : List CompressionOption) (sse : ServerSentEventGenerator) :
    ServerSentEventGenerator :=
  let cfg0 : compressionOptions :=
    { CompressionStrategy := .clientPriority
      ClientEncodings := parseEncodings sse.acceptEncoding
      Compressors := [] }
  let cfg1 := opts.foldl applyCompressionOption cfg0
  let cfg := if cfg1.Compressors = []
    then (((cfg1 |> (applyCompressionOption · .withBrotli))
      |> (applyCompressionOption · .withZstd))
      |> (applyCompressionOption · .withGzip))
      |> (applyCompressionOption · .withDeflate)
    else cfg1
  match cfg.CompressionStrategy with
  | .clientPriority =>
    match findClientPriority cfg.Compressors cfg.ClientEncodings with
    | some comp => selectCompressor sse comp
    | none => sse
  | .serverPriority =>
    match findServerPriority cfg.ClientEncodings cfg.Compressors with
    | some comp => selectCompressor sse comp
    | none => sse
  | .forced =>
    match cfg.Compressors with
    | comp :: _ => selectCompressor sse comp
    | [] => sse

/-! ## PatchElements (the patch-elements source file) -/

structure patchElementOptions where
  EventID : String
  RetryDuration : Int
  Selector : String
  Mode : String
  UseViewTransitions : Bool
  deriving DecidableEq

/-- PatchElementOption values from the patch-elements source file and
elements-sugar.go, as first-order data. -/
inductive PatchElementOption where
  | withPatchElementsEventID (id : String)
  | withSelector (sel : String)
  | withMode (merge : String)
  | withUseViewTransitions (b : Bool)
  | withRetryDuration (d : Int)
  deriving DecidableEq

/-- WithModeAppend from elements-sugar.go. -/
def WithModeAppend : PatchElementOption := .withMode ElementPatchModeAppend

def applyPatchElementOption (o : patchElementOptions) : PatchElementOption → patchElementOptions
  | .withPatchElementsEventID id => { o with EventID := id }
  | .withSelector sel => { o with Selector := sel }
  | .withMode merge => { o with Mode := merge }
  | .withUseViewTransitions b => { o with UseViewTransitions := b }
  | .withRetryDuration d => { o with RetryDuration := d }

/-- The options literal of PatchElements (UseViewTransitions takes the
Go zero value false) followed by the option loop. -/
def buildPatchElementOptions (defaultRetry : Int) (opts : List PatchElementOption) :
    patchElementOptions :=
  opts.foldl applyPatchElementOption
    { EventID := "", RetryDuration := defaultRetry, Selector := "",
      Mode := ElementPatchModeOuter, UseViewTransitions := false }

/-- The dataRows loop of PatchElements: selector row when the selector
is non-empty, mode row when the mode differs from outer, view
transition row when enabled, then one elements row per split line of
the fragment, only when the fragment is non-empty. -/
def patchElementsDataRows (o : patchElementOptions) (elements : String) : List String :=
  let dataRows : List String := []
  let dataRows := if o.Selector ≠ ""
    then dataRows ++ [SelectorDatalineLiteral ++ o.Selector] else dataRows
  let dataRows := if o.Mode ≠ ElementPatchModeOuter
    then dataRows ++ [ModeDatalineLiteral ++ o.Mode] else dataRows
  let dataRows := if o.UseViewTransitions
    then dataRows ++ [UseViewTransitionDatalineLiteral ++ "true"] else dataRows
  if elements ≠ ""
    then (goSplit '\n' elements).foldl
      (fun acc l => acc ++ [ElementsDatalineLiteral ++ l]) dataRows
    else dataRows

/-- The sendOptions list of PatchElements: the event id option when an
id was set, the retry duration option when the duration is positive. -/
def patchElementsSendOptions (o : patchElementOptions) : List SSEEventOption :=
  (if o.EventID ≠ "" then [SSEEventOption.withSSEEventId o.EventID] else [])
    ++ (if 0 < o.RetryDuration then [SSEEventOption.withSSERetryDuration o.RetryDuration] else [])

/-- PatchElements from the patch-elements source file. -/
def PatchElements (defaultRetry : Int) (sse : ServerSentEventGenerator) (elements : String)
    (opts : List PatchElementOption) : Except String ServerSentEventGenerator :=
  let options := buildPatchElementOptions defaultRetry opts
  match Send defaultRetry sse EventTypePatchElements
      (patchElementsDataRows options elements) (patchElementsSendOptions options) with
  | Except.error e => Except.error ("failed to send elements: " ++ e)
  | Except.ok sse2 => Except.ok sse2

/-! ## ExecuteScript (execute-script.go) -/

/-- executeScriptOptions from execute-script.go; AutoRemove is a bool
pointer, nil when never set. -/
structure executeScriptOptions where
  EventID : String
  AutoRemove : Option Bool
  Attributes : List String
  RetryDuration : Int
  deriving DecidableEq

inductive ExecuteScriptOption where
  | withExecuteScriptEventID (id : String)
  | withExecuteScriptRetryDuration (d : Int)
  | withExecuteScriptAutoRemove (b : Bool)
  | withExecuteScriptAttributes (attrs : List String)
  deriving DecidableEq

def applyExecuteScriptOption (o : executeScriptOptions) :
    ExecuteScriptOption → executeScriptOptions
  | .withExecuteScriptEventID id => { o with EventID := id }
  | .withExecuteScriptRetryDuration d => { o with RetryDuration := d }
  | .withExecuteScriptAutoRemove b => { o with AutoRemove := some b }
  | .withExecuteScriptAttributes attrs => { o with Attributes := attrs }

def buildExecuteScriptOptions (defaultRetry : Int) (opts : List ExecuteScriptOption) :
    executeScriptOptions :=
  opts.foldl applyExecuteScriptOption
    { EventID := "", AutoRemove := none, Attributes := [], RetryDuration := defaultRetry }

/-- The string-builder sequence of ExecuteScript: the opening script
tag, each attribute preceded by a space, the auto-remove behavior
attribute unless auto-remove was explicitly disabled, the closing of
the opening tag, the script contents, the closing tag. -/
def scriptFragment (o : executeScriptOptions) (scriptContents : String) : String :=
  let sb := "<script"
  let sb := o.Attributes.foldl (fun b attr => b ++ " " ++ attr) sb
  let sb := if (match o.AutoRemove with | none => true | some b => b)
    then sb ++ " data-effect=\x22el.remove()\x22" else sb
  sb ++ ">" ++ scriptContents ++ "</script>"

/-- The patch option list ExecuteScript passes to PatchElements. -/
def executeScriptPatchOpts (o : executeScriptOptions) : List PatchElementOption :=
  [PatchElementOption.withSelector "body", WithModeAppend]
    ++ (if o.EventID ≠ "" then [PatchElementOption.withPatchElementsEventID o.EventID] else [])
    ++ (if 0 < o.RetryDuration then [PatchElementOption.withRetryDuration o.RetryDuration] else [])

/-- ExecuteScript from execute-script.go: build the script element and
send it through PatchElements. -/
def ExecuteScript (defaultRetry : Int) (sse : ServerSentEventGenerator)
    (scriptContents : String) (opts : List ExecuteScriptOption) :
    Except String ServerSentEventGenerator :=
  let options := buildExecuteScriptOptions defaultRetry opts
  PatchElements defaultRetry sse (scriptFragment options scriptContents)
    (executeScriptPatchOpts options)

/-! ## PatchSignals (the patch-signals source file) -/

structure patchSignalsOptions where
  EventID : String
  RetryDuration : Int
  OnlyIfMissing : Bool
  deriving DecidableEq

inductive PatchSignalsOption where
  | withPatchSignalsEventID (id : String)
  | withPatchSignalsRetryDuration (d : Int)
  | withOnlyIfMissing (b : Bool)
  deriving DecidableEq

def applyPatchSignalsOption (o : patchSignalsOptions) : PatchSignalsOption → patchSignalsOptions
  | .withPatchSignalsEventID id => { o with EventID := id }
  | .withPatchSignalsRetryDuration d => { o with RetryDuration := d }
  | .withOnlyIfMissing b => { o with OnlyIfMissing := b }

def buildPatchSignalsOptions (defaultRetry : Int) (opts : List PatchSignalsOption) :
    patchSignalsOptions :=
  opts.foldl applyPatchSignalsOption
    { EventID := "", RetryDuration := defaultRetry, OnlyIfMissing := false }

/-- The dataRows loop of PatchSignals: the only-if-missing row when the
flag is set, then one signals row per split line of the payload. The
payload is split unconditionally, so the empty payload still yields
one (empty) line. -/
def patchSignalsDataRows (o : patchSignalsOptions) (signalsContents : String) : List String :=
  let dataRows : List String := []
  let dataRows := if o.OnlyIfMissing
    then dataRows ++ [OnlyIfMissingDatalineLiteral ++ goFormatBool o.OnlyIfMissing]
    else dataRows
  (goSplit '\n' signalsContents).foldl
    (fun acc line => acc ++ [SignalsDatalineLiteral ++ line]) dataRows

/-- The sendOptions list of PatchSignals: the event id option when an
id was set, the retry duration option when the duration differs from
the default. -/
def patchSignalsSendOptions (defaultRetry : Int) (o : patchSignalsOptions) :
    List SSEEventOption :=
  (if o.EventID ≠ "" then [SSEEventOption.withSSEEventId o.EventID] else [])
    ++ (if o.RetryDuration ≠ defaultRetry
        then [SSEEventOption.withSSERetryDuration o.RetryDuration] else [])

/-- PatchSignals from the patch-signals source file. -/
def PatchSignals (defaultRetry : Int) (sse : ServerSentEventGenerator)
    (signalsContents : String) (opts : List PatchSignalsOption) :
    Except String ServerSentEventGenerator :=
  let options := buildPatchSignalsOptions defaultRetry opts
  match Send defaultRetry sse EventTypePatchSignals
      (patchSignalsDataRows options signalsContents)
      (patchSignalsSendOptions defaultRetry options) with
  | Except.error e => Except.error ("failed to send patch signals: " ++ e)
  | Except.ok sse2 => Except.ok sse2

/-! ## ReadSignals (the signals source file)

The inbound request is modelled by its method, the value the reserved
Datastar query key resolves to (the Go query getter returns the empty
string when the key is absent, so absent and empty coincide), and the
request body. JSON decoding into the target shape is performed by the
standard library; it is abstracted as a decode function passed as a
parameter, failing exactly on payloads that are not valid JSON for the
target shape. The body read succeeds in this model (the distinct
body-already-consumed failure concerns request lifecycle outside these
claims). -/

structure Request where
  Method : String
  dsQueryValue : String
  Body : String
  deriving DecidableEq

/-- ReadSignals from the signals source file, parameterized by the
JSON decode function and the caller-supplied target value. On the
read-style method, an absent or empty reserved query value is a no-op
returning the target unmodified; otherwise the extracted payload is
decoded, and a decode failure is returned wrapped. -/
def ReadSignals {T : Type} (unmarshal : String → Except String T) (r : Request)
    (signals : T) : Except String T :=
  if r.Method = "GET" then
    let dsJSON := r.dsQueryValue
    if dsJSON = "" then Except.ok signals
    else
      match unmarshal dsJSON with
      | Except.error e => Except.error ("failed to unmarshal: " ++ e)
      | Except.ok v => Except.ok v
  else
    match unmarshal r.Body with
    | Except.error e => Except.error ("failed to unmarshal: " ++ e)
    | Except.ok v => Except.ok v

/-- The payload ReadSignals extracts from a request: the reserved query
value for read-style requests when non-empty, the body otherwise. -/
def extractPayload (r : Request) : Option String :=
  if r.Method = "GET" then
    if r.dsQueryValue = "" then none else some r.dsQueryValue
  else some r.Body

/-! ## Helper lemmas -/

theorem buildEvent_Kind (defaultRetry : Int) (eventType : String) (dataLines : List String)
    (opts : List SSEEventOption) :
    (buildEvent defaultRetry eventType dataLines opts).Kind = eventType :=
  applyOpts_Kind opts _

theorem buildEvent_Data (defaultRetry : Int) (eventType : String) (dataLines : List String)
    (opts : List SSEEventOption) :
    (buildEvent defaultRetry eventType dataLines opts).Data = dataLines :=
  applyOpts_Data opts _

theorem foldl_append_singleton {α β : Type} (f : α → β) (l : List α) (init : List β) :
    l.foldl (fun acc x => acc ++ [f x]) init = init ++ l.map f := by
  induction l generalizing init with
  | nil => simp
  | cons x rest ih => simp [List.foldl, ih]

theorem foldl_str_append (sb : String) (l : List String) :
    l.foldl (fun b a => b ++ " " ++ a) sb = sb ++ strConcat (l.map fun a => " " ++ a) := by
  induction l generalizing sb with
  | nil => simp [strConcat, String.append_empty]
  | cons a rest ih =>
    simp only [List.foldl, List.map_cons, strConcat, ih]
    rw [String.append_assoc, String.append_assoc, String.append_assoc]

/-- The claim-worded frame layout of C1: identical to the layout of
the source encoder except that the event is closed by a single newline
after the data lines. The retry condition, which C1 leaves open as an
optional line, is taken from the source so that the terminator is the
only point of comparison. -/
def claimedFrameBytes (defaultRetry : Int) (evt : serverSentEventData) : String :=
  "event: " ++ evt.Kind ++ "\n"
    ++ (if evt.EventID ≠ "" then "id: " ++ evt.EventID ++ "\n" else "")
    ++ (if 0 < durationMs evt.RetryDuration ∧
          durationMs evt.RetryDuration ≠ durationMs defaultRetry
        then "retry: " ++ toString (durationMs evt.RetryDuration) ++ "\n" else "")
    ++ strConcat (evt.Data.map fun d => "data: " ++ d ++ "\n")
    ++ "\n"

/-! ## Claim C1 -/

/-- C1, counterexample: the claim predicts that a Send of event type t
with the single data line x appends the bytes of the event line, the
data line and a single newline terminator and nothing else, which is
the string of the claimedFrameBytes layout; the code appends one more
newline (the double-newline event separator of sse.go line 202), so
the appended bytes differ from the predicted bytes. -/
theorem send_frame_terminator_counterexample :
    Send 1000000000 ⟨none, "", "", [], ""⟩ "t" ["x"] [] =
      Except.ok ⟨none, "event: t\ndata: x\n\n\n", "", [], ""⟩
    ∧ claimedFrameBytes 1000000000 (buildEvent 1000000000 "t" ["x"] []) = "event: t\ndata: x\n\n"
    ∧ ("event: t\ndata: x\n\n\n" : String) ≠ "event: t\ndata: x\n\n" :=
  ⟨rfl, rfl, by decide⟩

/-- C1, amended: for every Send on a generator whose context is not
cancelled, the bytes appended to the sink are exactly the line event:
eventType, then the id line only if an id was supplied, then an
optional retry line in integer milliseconds, then one data: line per
entry of dataLines in order, then the two-newline event terminator (a
blank line closing the event plus one extra separator newline) — in
this fixed field order and with nothing else. -/
theorem send_frame_bytes (defaultRetry : Int) (sink enc ae : String) (wr : List String)
    (eventType : String) (dataLines : List String) (opts : List SSEEventOption) :
    Send defaultRetry ⟨none, sink, enc, wr, ae⟩ eventType dataLines opts =
      Except.ok ⟨none, sink ++
        ("event: " ++ eventType ++ "\n"
          ++ (if (buildEvent defaultRetry eventType dataLines opts).EventID ≠ ""
              then "id: " ++ (buildEvent defaultRetry eventType dataLines opts).EventID ++ "\n"
              else "")
          ++ (if 0 < durationMs (buildEvent defaultRetry eventType dataLines opts).RetryDuration ∧
                durationMs (buildEvent defaultRetry eventType dataLines opts).RetryDuration ≠
                  durationMs defaultRetry
              then "retry: " ++
                toString (durationMs (buildEvent defaultRetry eventType dataLines opts).RetryDuration)
                ++ "\n"
              else "")
          ++ strConcat (dataLines.map fun d => "data: " ++ d ++ "\n")
          ++ "\n\n"), enc, wr, ae⟩ := by
  have h := sendFrame_layout defaultRetry (buildEvent defaultRetry eventType dataLines opts)
  rw [buildEvent_Kind, buildEvent_Data] at h
  simp only [Send, h]

/-! ## Claim C2 -/

/-- C2: for every sequence of Send calls on one generator from a single
execution context whose context is not cancelled, every call succeeds
and the total byte sequence observed on the sink equals the
concatenation of each call's encoded frame in call order, with no
extra bytes. -/
theorem send_sequence_concat (defaultRetry : Int) (sink enc ae : String) (wr : List String)
    (calls : List SendCall) :
    sendSeq defaultRetry ⟨none, sink, enc, wr, ae⟩ calls =
      Except.ok ⟨none, sink ++ strConcat (calls.map (callFrame defaultRetry)), enc, wr, ae⟩ := by
  induction calls generalizing sink with
  | nil => simp [sendSeq, strConcat, String.append_empty]
  | cons c rest ih =>
    simp only [sendSeq, Send, List.map_cons, strConcat]
    rw [ih, String.append_assoc]
    rfl

/-! ## Claim C3 -/

theorem sendRetryLoop_cancelled (defaultRetry : Int) (e sink enc ae : String)
    (wr : List String) (c : SendCall) (n : Nat) :
    sendRetryLoop defaultRetry ⟨some e, sink, enc, wr, ae⟩ c n = ⟨some e, sink, enc, wr, ae⟩ := by
  induction n with
  | zero => rfl
  | succ n ih => simp only [sendRetryLoop, Send, ih]

/-- C3: on a generator whose cancellation context has been signalled,
every Send call returns the context-cancelled failure; repeating the
call any number N of times leaves the generator, in particular its
sink, unchanged (idempotent rejection, zero bytes written); and
IsClosed returns true exactly when the context has been signalled. -/
theorem cancelled_send_rejected (defaultRetry : Int) (e sink enc ae : String)
    (wr : List String) (eventType : String) (dataLines : List String)
    (opts : List SSEEventOption) (c : SendCall) (n : Nat) :
    Send defaultRetry ⟨some e, sink, enc, wr, ae⟩ eventType dataLines opts =
      Except.error ("context cancelled: " ++ e)
    ∧ sendRetryLoop defaultRetry ⟨some e, sink, enc, wr, ae⟩ c n = ⟨some e, sink, enc, wr, ae⟩
    ∧ IsClosed ⟨some e, sink, enc, wr, ae⟩ = true
    ∧ (∀ g : ServerSentEventGenerator, IsClosed g = true ↔ g.ctxErr ≠ none) := by
  refine ⟨rfl, sendRetryLoop_cancelled defaultRetry e sink enc ae wr c n, rfl, ?_⟩
  intro g
  cases hg : g.ctxErr <;> simp [IsClosed, hg]

/-! ## Claim C4 -/

/-- C4: with client tokens gzip, br (Accept-Encoding "gzip, br") and
the configured compressors br, gzip (in that order): client priority
selects gzip, the first client token with a configured match; server
priority selects br, the first configured compressor appearing in the
client list; forced selects br, the first configured compressor,
regardless of the client tokens; and when no token matches under
client priority or server priority (client tokens zzz), no compressor
is selected and the generator, in particular its sink wrapping and its
encoding, is left unmodified — a plain value, not an error. -/
theorem compression_negotiation (ctx : Option String) (sink enc : String) (wr : List String) :
    WithCompression [.withBrotli, .withGzip, .withClientPriority] ⟨ctx, sink, enc, wr, "gzip, br"⟩
      = ⟨ctx, sink, "gzip", "gzip" :: wr, "gzip, br"⟩
    ∧ WithCompression [.withBrotli, .withGzip, .withServerPriority] ⟨ctx, sink, enc, wr, "gzip, br"⟩
      = ⟨ctx, sink, "br", "br" :: wr, "gzip, br"⟩
    ∧ WithCompression [.withBrotli, .withGzip, .withForced] ⟨ctx, sink, enc, wr, "gzip, br"⟩
      = ⟨ctx, sink, "br", "br" :: wr, "gzip, br"⟩
    ∧ WithCompression [.withBrotli, .withGzip, .withForced] ⟨ctx, sink, enc, wr, "zzz"⟩
      = ⟨ctx, sink, "br", "br" :: wr, "zzz"⟩
    ∧ WithCompression [.withBrotli, .withGzip, .withClientPriority] ⟨ctx, sink, enc, wr, "zzz"⟩
      = ⟨ctx, sink, enc, wr, "zzz"⟩
    ∧ WithCompression [.withBrotli, .withGzip, .withServerPriority] ⟨ctx, sink, enc, wr, "zzz"⟩
      = ⟨ctx, sink, enc, wr, "zzz"⟩ :=
  ⟨rfl, rfl, rfl, rfl, rfl, rfl⟩

/-! ## Claim C5 -/

/-- Flat form of the dataRows loop of PatchElements. -/
theorem patchElementsDataRows_flat (o : patchElementOptions) (elements : String) :
    patchElementsDataRows o elements =
      (if o.Selector ≠ "" then ["selector " ++ o.Selector] else [])
        ++ (if o.Mode ≠ "outer" then ["mode " ++ o.Mode] else [])
        ++ (if o.UseViewTransitions then ["useViewTransition true"] else [])
        ++ (if elements ≠ "" then (goSplit '\n' elements).map (fun l => "elements " ++ l)
            else []) := by
  unfold patchElementsDataRows
  simp only [foldl_append_singleton, SelectorDatalineLiteral, ModeDatalineLiteral,
    UseViewTransitionDatalineLiteral, ElementsDatalineLiteral, ElementPatchModeOuter]
  split <;> split <;> split <;> split <;> simp

/-- C5: for every PatchElements call, the emitted event is a Send of
the patch-elements event type whose datalines are, in order: a
selector row only if a non-default (non-empty) selector was set, a
mode row only if the mode differs from the default outer, a
useViewTransition true row only if view transitions were enabled, then
one elements row per physical line of the non-empty fragment, obtained
by splitting the fragment on line breaks and prepending the elements
literal to each line; the claim example (selector #x, mode append,
two-line fragment) yields exactly its four rows. -/
theorem patch_elements_datalines (defaultRetry : Int) (sink enc ae : String)
    (wr : List String) (elements : String) (opts : List PatchElementOption) :
    PatchElements defaultRetry ⟨none, sink, enc, wr, ae⟩ elements opts =
      Send defaultRetry ⟨none, sink, enc, wr, ae⟩ "datastar-patch-elements"
        ((if (buildPatchElementOptions defaultRetry opts).Selector ≠ ""
            then ["selector " ++ (buildPatchElementOptions defaultRetry opts).Selector] else [])
          ++ (if (buildPatchElementOptions defaultRetry opts).Mode ≠ "outer"
              then ["mode " ++ (buildPatchElementOptions defaultRetry opts).Mode] else [])
          ++ (if (buildPatchElementOptions defaultRetry opts).UseViewTransitions
              then ["useViewTransition true"] else [])
          ++ (if elements ≠ "" then (goSplit '\n' elements).map (fun l => "elements " ++ l)
              else []))
        (patchElementsSendOptions (buildPatchElementOptions defaultRetry opts))
    ∧ patchElementsDataRows
        (buildPatchElementOptions 1000000000
          [.withSelector "#x", .withMode "append"]) "<b>hi</b>\n<i>lo</i>"
      = ["selector #x", "mode append", "elements <b>hi</b>", "elements <i>lo</i>"] := by
  refine ⟨?_, rfl⟩
  rw [show ("datastar-patch-elements" : String) = EventTypePatchElements from rfl,
    ← patchElementsDataRows_flat]
  simp only [PatchElements, Send]

/-! ## Claim C6 -/

/-- Flat form of the script-tag string builder of ExecuteScript. -/
theorem scriptFragment_flat (o : executeScriptOptions) (scriptContents : String) :
    scriptFragment o scriptContents =
      "<script" ++ strConcat (o.Attributes.map fun a => " " ++ a)
        ++ (if (match o.AutoRemove with | none => true | some b => b)
            then " data-effect=\x22el.remove()\x22" else "")
        ++ ">" ++ scriptContents ++ "</script>" := by
  simp only [scriptFragment, foldl_str_append]
  split
  · rfl
  · rw [String.append_empty]

/-- C6: every ExecuteScript call emits a patch-elements event through
PatchElements with selector body and mode append, whose fragment is
the script opening tag carrying the caller-supplied attribute strings
in caller order, each preceded by a space, then, unless auto-remove
was explicitly disabled, the self-removal behavior attribute, then the
script contents and the closing tag; with no attributes and default
auto-remove the emitted frame carries exactly the selector body, mode
append and script-element datalines. -/
theorem execute_script_event (defaultRetry : Int) (sse : ServerSentEventGenerator)
    (scriptContents : String) (opts : List ExecuteScriptOption) :
    ExecuteScript defaultRetry sse scriptContents opts =
      PatchElements defaultRetry sse
        ("<script"
          ++ strConcat ((buildExecuteScriptOptions defaultRetry opts).Attributes.map
              fun a => " " ++ a)
          ++ (if (match (buildExecuteScriptOptions defaultRetry opts).AutoRemove with
                  | none => true | some b => b)
              then " data-effect=\x22el.remove()\x22" else "")
          ++ ">" ++ scriptContents ++ "</script>")
        ([PatchElementOption.withSelector "body", PatchElementOption.withMode "append"]
          ++ (if (buildExecuteScriptOptions defaultRetry opts).EventID ≠ ""
              then [PatchElementOption.withPatchElementsEventID
                (buildExecuteScriptOptions defaultRetry opts).EventID] else [])
          ++ (if 0 < (buildExecuteScriptOptions defaultRetry opts).RetryDuration
              then [PatchElementOption.withRetryDuration
                (buildExecuteScriptOptions defaultRetry opts).RetryDuration] else []))
    ∧ ExecuteScript 1000000000 ⟨none, "", "", [], ""⟩ "console.log(1)" [] =
        Except.ok ⟨none,
          "event: datastar-patch-elements\ndata: selector body\ndata: mode append\ndata: elements <script data-effect=\x22el.remove()\x22>console.log(1)</script>\n\n\n",
          "", [], ""⟩ := by
  refine ⟨?_, rfl⟩
  rw [← scriptFragment_flat]
  rfl

/-! ## Claim C7 -/

/-- C7, counterexample: an event whose retry duration is 0 differs
from the process default of one second, yet the encoder emits no retry
write block and the frame is the bare event line plus terminator — the
claimed equivalence (retry line present exactly when the duration
differs from the default) fails in the only-if direction. -/
theorem retry_line_claim_counterexample :
    (buildEvent 1000000000 "t" [] [SSEEventOption.withSSERetryDuration 0]).RetryDuration
      ≠ 1000000000
    ∧ sendFields 1000000000 (buildEvent 1000000000 "t" [] [SSEEventOption.withSSERetryDuration 0])
      = [FrameField.eventLine "t", FrameField.eventEnd]
    ∧ sendFrame 1000000000 (buildEvent 1000000000 "t" [] [SSEEventOption.withSSERetryDuration 0])
      = "event: t\n\n\n" :=
  ⟨by decide, by decide, rfl⟩

/-- Membership of a retry write block in the encoded frame. -/
theorem retryLine_mem_sendFields (defaultRetry : Int) (evt : serverSentEventData) (m : Int) :
    FrameField.retryLine m ∈ sendFields defaultRetry evt ↔
      (m = durationMs evt.RetryDuration ∧ 0 < durationMs evt.RetryDuration ∧
        durationMs evt.RetryDuration ≠ durationMs defaultRetry) := by
  by_cases hc : 0 < durationMs evt.RetryDuration ∧
      durationMs evt.RetryDuration ≠ durationMs defaultRetry
  · by_cases hid : evt.EventID ≠ "" <;>
      simp [sendFields, hc, hc.1, hc.2, hid, eq_comm]
  · by_cases hid : evt.EventID ≠ "" <;>
      simp [sendFields, hc, hid]

/-- C7, amended: for every Send call, a retry write block is present in
the emitted frame exactly when the event retry duration, truncated to
integer milliseconds, is positive and differs in milliseconds from the
process-wide default retry duration; when present it carries that
millisecond count. -/
theorem retry_line_condition (defaultRetry : Int) (eventType : String)
    (dataLines : List String) (opts : List SSEEventOption) (m : Int) :
    FrameField.retryLine m ∈
        sendFields defaultRetry (buildEvent defaultRetry eventType dataLines opts) ↔
      (m = durationMs (buildEvent defaultRetry eventType dataLines opts).RetryDuration
        ∧ 0 < durationMs (buildEvent defaultRetry eventType dataLines opts).RetryDuration
        ∧ durationMs (buildEvent defaultRetry eventType dataLines opts).RetryDuration
            ≠ durationMs defaultRetry) :=
  retryLine_mem_sendFields defaultRetry (buildEvent defaultRetry eventType dataLines opts) m

/-! ## Claim C8 -/

/-- The claim-worded token list of C8: split the header on commas,
trim whitespace from each part, and discard any quality-weighting
suffix after a semicolon, preserving order. -/
def claimedClientTokens (header : String) : List String :=
  (goSplit ',' header).map fun p => (goSplit ';' (goTrim p)).headD ""

/-- C8, counterexample: on the header gzip,,br the code discards the
empty token produced by the adjacent commas, while the claimed
procedure keeps it, so the two lists differ. -/
theorem parse_encodings_claim_counterexample :
    parseEncodings "gzip,,br" = ["gzip", "br"]
    ∧ claimedClientTokens "gzip,,br" = ["gzip", "", "br"]
    ∧ parseEncodings "gzip,,br" ≠ claimedClientTokens "gzip,,br" :=
  ⟨rfl, rfl, by decide⟩

/-- The parse loop keeps exactly the non-empty claimed tokens. -/
theorem parseEncLoop_eq_filter (parts : List String) :
    parseEncLoop parts =
      (parts.map fun p => (goSplit ';' (goTrim p)).headD "").filter (fun t => t != "") := by
  induction parts with
  | nil => rfl
  | cons p rest ih =>
    simp only [parseEncLoop, List.map_cons, List.filter_cons]
    by_cases h : (goSplit ';' (goTrim p)).headD "" = ""
    · rw [if_neg (not_not_intro h), if_neg (by simpa using h), ih]
    · rw [if_pos h, if_pos (by simpa using h), ih]

/-- C8, amended: for every Accept-Encoding header, the client token
list is obtained by splitting the header on commas, trimming
whitespace from each part, discarding any quality-weighting suffix
after a semicolon, and additionally discarding the tokens that are
empty after this, preserving the client order; the claim example still
holds: the header with a quality weight on gzip yields gzip then br. -/
theorem parse_encodings_tokens :
    (∀ header : String,
      parseEncodings header = (claimedClientTokens header).filter (fun t => t != ""))
    ∧ parseEncodings " gzip;q=0.8, br " = ["gzip", "br"] := by
  refine ⟨fun header => ?_, rfl⟩
  unfold parseEncodings claimedClientTokens
  exact parseEncLoop_eq_filter (goSplit ',' header)

/-! ## Claim C9 -/

/-- C9: for every read-style (GET) request in which the reserved query
key resolves to the empty value (absent or empty), ReadSignals returns
the caller-supplied target unmodified with no error; and for every
request whose extracted payload is present but fails to decode as JSON
for the target shape, ReadSignals returns the wrapped decode error. -/
theorem read_signals_behavior {T : Type} (unmarshal : String → Except String T) :
    (∀ (r : Request) (t : T), r.Method = "GET" → r.dsQueryValue = "" →
      ReadSignals unmarshal r t = Except.ok t)
    ∧ (∀ (r : Request) (t : T) (p e : String), extractPayload r = some p →
      unmarshal p = Except.error e →
      ReadSignals unmarshal r t = Except.error ("failed to unmarshal: " ++ e)) := by
  constructor
  · intro r t h1 h2
    simp [ReadSignals, h1, h2]
  · intro r t p e hp hu
    by_cases hm : r.Method = "GET"
    · by_cases hq : r.dsQueryValue = ""
      · simp [extractPayload, hm, hq] at hp
      · simp [extractPayload, hm, hq] at hp
        subst hp
        simp [ReadSignals, hm, hq, hu]
    · simp [extractPayload, hm] at hp
      subst hp
      simp [ReadSignals, hm, hu]

/-- Witness for C9: a concrete decoder that accepts only the payload
ok; the GET request with an empty reserved query value is a no-op on
the target 5, and the non-read request with the undecodable body zzz
fails with the wrapped decode error. -/
theorem read_signals_behavior_witness :
    ReadSignals (fun s => if s = "ok" then Except.ok (1 : Nat) else Except.error "boom")
        ⟨"GET", "", "zzz"⟩ 5 = Except.ok 5
    ∧ ReadSignals (fun s => if s = "ok" then Except.ok (1 : Nat) else Except.error "boom")
        ⟨"POST", "", "zzz"⟩ 5 = Except.error ("failed to unmarshal: " ++ "boom") :=
  ⟨(read_signals_behavior (fun s => if s = "ok" then Except.ok (1 : Nat)
      else Except.error "boom")).1 ⟨"GET", "", "zzz"⟩ 5 rfl rfl,
    (read_signals_behavior (fun s => if s = "ok" then Except.ok (1 : Nat)
      else Except.error "boom")).2 ⟨"POST", "", "zzz"⟩ 5 "zzz" "boom" rfl rfl⟩

/-! ## Claim C10 -/

/-- C10: PatchSignals on the empty payload with no options emits an
event with exactly one dataline, the signals literal followed by the
empty string (splitting the empty payload yields one empty line),
while PatchElements on the empty fragment emits no elements dataline
at all — the empty payload is treated asymmetrically. -/
theorem empty_payload_asymmetry :
    PatchSignals 1000000000 ⟨none, "", "", [], ""⟩ "" [] =
      Except.ok ⟨none, "event: datastar-patch-signals\ndata: signals \n\n\n", "", [], ""⟩
    ∧ patchSignalsDataRows (buildPatchSignalsOptions 1000000000 []) "" = ["signals "]
    ∧ PatchElements 1000000000 ⟨none, "", "", [], ""⟩ "" [] =
      Except.ok ⟨none, "event: datastar-patch-elements\n\n\n", "", [], ""⟩
    ∧ patchElementsDataRows (buildPatchElementOptions 1000000000 []) "" = [] :=
  ⟨rfl, rfl, rfl, rfl⟩

end DatastarGo
